import Mathlib

/-!
# Verification of the freelance-backend authentication subsystem

A shallow embedding of the authentication/session code of the
freelance-marketplace backend (`src/utils/auth.ts` = `AuthService`,
`src/middleware/auth.ts`, `src/routes/auth.ts`) together with proofs of the
specification claims about it.

Modelling conventions:
* Time is a `Nat` (milliseconds, as `Date.now()` in the source).
* The relational store (Prisma over SQLite) is a record of lists of rows;
  `findUnique` is `List.find?`, `delete` on a unique key throws `P2025` when no
  row matches (modelled by a `Bool` result, as the source catches the throw),
  `deleteMany` filters and never fails on an empty match.  Row ids that the
  database generates are drawn from a `nextId` counter.
* JSON web tokens are modelled as an inductive type: a signed token carries its
  payload, the signing secret, the issue time and the expiry; any other string
  is `garbage`.  `jwt.verify` succeeds exactly on a token signed with the given
  secret whose expiry has not passed.
* bcrypt (the external `bcryptjs` library) is modelled as an ideal password
  commitment: hashing records the password and the cost factor, comparison
  checks the recorded password.
-/

namespace FreelanceAuth

/-- The JWT payload the service signs: `{ userId, email, role }`. -/
structure JWTPayload where
  userId : String
  email : String
  role : String
deriving DecidableEq, Repr

/-- A syntactically well-formed signed token: payload, signing secret,
issue time (`iat`) and expiry (`exp`). -/
structure SignedToken where
  payload : JWTPayload
  secret : String
  iat : Nat
  exp : Nat
deriving DecidableEq, Repr

/-- A bearer-token string: either a well-formed signed token or garbage
(a syntactically invalid token string). -/
inductive Token where
  | signed (st : SignedToken)
  | garbage (raw : String)
deriving DecidableEq, Repr

/-- `AuthService.JWT_SECRET` (from the environment; an opaque constant). -/
def JWT_SECRET : String := "JWT_SECRET"

/-- `AuthService.JWT_REFRESH_SECRET` (from the environment; a distinct opaque
constant). -/
def JWT_REFRESH_SECRET : String := "JWT_REFRESH_SECRET"

/-- `JWT_EXPIRES_IN = '1h'`, in milliseconds. -/
def ACCESS_TTL : Nat := 60 * 60 * 1000

/-- `JWT_REFRESH_EXPIRES_IN = '7d'` and the stored-row expiry
`7 * 24 * 60 * 60 * 1000`, in milliseconds. -/
def REFRESH_TTL : Nat := 7 * 24 * 60 * 60 * 1000

/-- `jwt.verify(token, secret)` at time `now`: succeeds exactly on a token
signed with `secret` that has not yet expired, returning its payload;
on anything else (garbage, wrong secret, expired) it throws, which the
callers turn into `null`. -/
def jwtVerify (secret : String) (now : Nat) : Token → Option JWTPayload
  | Token.signed st => if st.secret == secret && now < st.exp then some st.payload else none
  | Token.garbage _ => none

/-- A bcrypt hash, modelled as an ideal commitment to the password
(`bcryptjs.hash(password, SALT_ROUNDS)`). -/
structure BcryptHash where
  cost : Nat
  pw : String
deriving DecidableEq, Repr

/-- `AuthService.SALT_ROUNDS` (default 12). -/
def SALT_ROUNDS : Nat := 12

/-- `AuthService.hashPassword`. -/
def hashPassword (password : String) : BcryptHash :=
  ⟨SALT_ROUNDS, password⟩

/-- `AuthService.comparePassword`. -/
def comparePassword (password : String) (hash : BcryptHash) : Bool :=
  password == hash.pw

/-- A row of the `users` table, restricted to the columns the auth subsystem
reads or writes. -/
structure User where
  id : String
  email : String
  passwordHash : BcryptHash
  firstName : String
  lastName : String
  role : String
  avatar : Option String
  bio : Option String
  isEmailVerified : Bool
  averageRating : Nat
  totalReviews : Nat
  hourlyRate : Option Nat
  companyName : Option String
  companySize : Option String
  isOnline : Bool
  lastSeen : Nat
  createdAt : Nat
deriving DecidableEq, Repr

/-- A row of the `refresh_tokens` table. -/
structure RefreshTokenRow where
  id : Nat
  token : Token
  userId : String
  expiresAt : Nat
deriving DecidableEq, Repr

/-- A row of the `password_reset_tokens` table. -/
structure ResetTokenRow where
  id : Nat
  token : String
  userId : String
  expiresAt : Nat
deriving DecidableEq, Repr

/-- A row of the `user_skills` table. -/
structure UserSkillRow where
  userId : String
  skill : String
deriving DecidableEq, Repr

/-- The relational store: the tables the auth subsystem touches, plus a
counter from which database-generated ids are drawn. -/
structure DB where
  users : List User
  refreshTokens : List RefreshTokenRow
  resetTokens : List ResetTokenRow
  userSkills : List UserSkillRow
  nextId : Nat
deriving DecidableEq, Repr

/-- `AuthService.generateAccessToken` at time `now`. -/
def generateAccessToken (now : Nat) (payload : JWTPayload) : Token :=
  Token.signed ⟨payload, JWT_SECRET, now, now + ACCESS_TTL⟩

/-- `AuthService.generateRefreshToken` at time `now`. -/
def generateRefreshToken (now : Nat) (payload : JWTPayload) : Token :=
  Token.signed ⟨payload, JWT_REFRESH_SECRET, now, now + REFRESH_TTL⟩

/-- `AuthService.generateTokenPair`: sign an access and a refresh token from
the user's id/email/role and persist the refresh token with stored expiry
`now + 7 days`.  `prisma.refreshToken.create` throws on a duplicate token
string (unique index `refresh_tokens_token_key`), modelled as `none`. -/
def generateTokenPair (db : DB) (now : Nat) (user : User) :
    Option ((Token × Token) × DB) :=
  let payload : JWTPayload := ⟨user.id, user.email, user.role⟩
  let accessToken := generateAccessToken now payload
  let refreshToken := generateRefreshToken now payload
  if db.refreshTokens.any (fun r => r.token == refreshToken) then
    none
  else
    some ((accessToken, refreshToken),
      { db with
          refreshTokens :=
            db.refreshTokens ++ [⟨db.nextId, refreshToken, user.id, now + REFRESH_TTL⟩],
          nextId := db.nextId + 1 })

/-- `AuthService.verifyAccessToken` (returns `null` when `jwt.verify` throws). -/
def verifyAccessToken (now : Nat) (token : Token) : Option JWTPayload :=
  jwtVerify JWT_SECRET now token

/-- `AuthService.verifyRefreshToken`. -/
def verifyRefreshToken (now : Nat) (token : Token) : Option JWTPayload :=
  jwtVerify JWT_REFRESH_SECRET now token

/-- `AuthService.refreshAccessToken`: verify the refresh token's signature,
look up the persisted row (with its user); if absent return `null`; if the
stored expiry has passed, delete the stale row and return `null`; otherwise
mint a fresh access token from the stored user's current id/email/role. -/
def refreshAccessToken (db : DB) (now : Nat) (refreshToken : Token) :
    Option Token × DB :=
  match verifyRefreshToken now refreshToken with
  | none => (none, db)
  | some _payload =>
    match db.refreshTokens.find? (fun r => r.token == refreshToken) with
    | none => (none, db)
    | some storedToken =>
      if storedToken.expiresAt < now then
        (none,
          { db with
              refreshTokens := db.refreshTokens.filter (fun r => !(r.id == storedToken.id)) })
      else
        match db.users.find? (fun u => u.id == storedToken.userId) with
        | some user =>
          (some (generateAccessToken now ⟨user.id, user.email, user.role⟩), db)
        | none => (none, db)

/-- `AuthService.revokeRefreshToken`: `prisma.refreshToken.delete({where:{token}})`
throws `P2025` when no row matches, which the catch turns into `false`;
otherwise the row is deleted and the result is `true`. -/
def revokeRefreshToken (db : DB) (token : Token) : Bool × DB :=
  if db.refreshTokens.any (fun r => r.token == token) then
    (true, { db with refreshTokens := db.refreshTokens.filter (fun r => !(r.token == token)) })
  else
    (false, db)

/-- `AuthService.revokeAllUserTokens`: `deleteMany({where:{userId}})` deletes
every matching row and succeeds (with count 0) even when none match. -/
def revokeAllUserTokens (db : DB) (userId : String) : Bool × DB :=
  (true, { db with refreshTokens := db.refreshTokens.filter (fun r => !(r.userId == userId)) })

/-- `AuthService.generatePasswordResetToken`: persist a fresh `uuidv4` token
(the uuid is external randomness, passed in) with expiry `now + 1 hour`. -/
def generatePasswordResetToken (db : DB) (now : Nat) (uuid : String) (userId : String) :
    String × DB :=
  (uuid,
    { db with
        resetTokens := db.resetTokens ++ [⟨db.nextId, uuid, userId, now + 60 * 60 * 1000⟩],
        nextId := db.nextId + 1 })

/-- `AuthService.verifyPasswordResetToken`: look up the row (with its user);
absent → `null`; expired → delete the stale row and `null`; otherwise return
the owning user. -/
def verifyPasswordResetToken (db : DB) (now : Nat) (token : String) :
    Option User × DB :=
  match db.resetTokens.find? (fun r => r.token == token) with
  | none => (none, db)
  | some resetToken =>
    if resetToken.expiresAt < now then
      (none,
        { db with resetTokens := db.resetTokens.filter (fun r => !(r.id == resetToken.id)) })
    else
      (db.users.find? (fun u => u.id == resetToken.userId), db)

/-- `AuthService.consumePasswordResetToken`: delete by unique token, `false`
when no row matches (P2025 caught), `true` otherwise. -/
def consumePasswordResetToken (db : DB) (token : String) : Bool × DB :=
  if db.resetTokens.any (fun r => r.token == token) then
    (true, { db with resetTokens := db.resetTokens.filter (fun r => !(r.token == token)) })
  else
    (false, db)

/-! ## Input validation (express-validator chains, modelled) -/

/-- Modelled from the spec: express-validator's `isEmail` check (the
input-validation middleware is an external collaborator); a string with
exactly one `@`, not at either end. -/
def isValidEmail (s : String) : Bool :=
  s.toList.count '@' == 1 &&
  !(s.toList.head? == some '@') &&
  !(s.toList.getLast? == some '@')

/-- Modelled from the spec: express-validator's `normalizeEmail` sanitizer
(external collaborator).  It is an idempotent canonicalization applied both
at registration and at login; its exact case-folding is immaterial to the
claims, so it is modelled as the identity. -/
def normalizeEmail (s : String) : String := s

/-- Modelled from the spec: express-validator's `trim()` sanitizer (external
collaborator), dropping leading and trailing whitespace. -/
def trimStr (s : String) : String :=
  ⟨((s.toList.dropWhile Char.isWhitespace).reverse.dropWhile Char.isWhitespace).reverse⟩

/-- The password rule of the register and reset-password chains: at least 8
characters, with a lowercase letter, an uppercase letter and a digit. -/
def passwordPolicy (p : String) : Bool :=
  decide (8 ≤ p.toList.length) && p.toList.any Char.isLower &&
  p.toList.any Char.isUpper && p.toList.any Char.isDigit

/-- JavaScript truthiness of an optional number (`0` and absence are falsy). -/
def natTruthy : Option Nat → Bool
  | some n => !(n == 0)
  | none => false

/-- JavaScript truthiness of an optional string (`''` and absence are falsy). -/
def strTruthy : Option String → Bool
  | some s => !(s == "")
  | none => false

/-- JavaScript `a || b` on an optional string against a default. -/
def jsStrOr (a : Option String) (b : String) : String :=
  match a with
  | some s => if s == "" then b else s
  | none => b

/-- The body of a `/register` request (numeric rate as `Nat`; the float
parsing of the source is immaterial to the claims). -/
structure RegisterInput where
  email : String
  password : String
  firstName : String
  lastName : String
  role : String
  hourlyRate : Option Nat
  bio : Option String
  skills : Option (List String)
  companyName : Option String
  companySize : Option String
deriving DecidableEq, Repr

/-- The `/register` validator chain. -/
def registerValidation (i : RegisterInput) : Bool :=
  isValidEmail i.email &&
  passwordPolicy i.password &&
  (decide (1 ≤ (trimStr i.firstName).length) && decide ((trimStr i.firstName).length ≤ 50)) &&
  (decide (1 ≤ (trimStr i.lastName).length) && decide ((trimStr i.lastName).length ≤ 50)) &&
  (i.role == "FREELANCER" || i.role == "CLIENT") &&
  (match i.hourlyRate with
   | none => true
   | some r => decide (5 ≤ r)) &&
  (match i.bio with
   | none => true
   | some b => decide (50 ≤ b.length) && decide (b.length ≤ 1000)) &&
  (match i.companyName with
   | none => true
   | some c => decide (1 ≤ (trimStr c).length) && decide ((trimStr c).length ≤ 100)) &&
  (match i.companySize with
   | none => true
   | some s => s == "1-10" || s == "11-50" || s == "51-200" || s == "201-500" || s == "500+")

/-! ## Route handlers (`src/routes/auth.ts`) -/

/-- The user row `/register` inserts: normalized email, trimmed names,
role-specific profile fields, schema defaults for the rest.  The generated
id is drawn from the store's id counter. -/
def mkNewUser (db : DB) (i : RegisterInput) (now : Nat) : User :=
  { id := "u" ++ toString db.nextId
    email := normalizeEmail i.email
    passwordHash := hashPassword i.password
    firstName := (trimStr i.firstName)
    lastName := (trimStr i.lastName)
    role := i.role
    avatar := none
    bio := if i.role == "FREELANCER" then i.bio else none
    isEmailVerified := false
    averageRating := 0
    totalReviews := 0
    hourlyRate := if i.role == "FREELANCER" then i.hourlyRate else none
    companyName :=
      if i.role == "CLIENT" && strTruthy (i.companyName.map trimStr) then
        i.companyName.map trimStr
      else none
    companySize :=
      if i.role == "CLIENT" && strTruthy (i.companyName.map trimStr) then
        (if strTruthy i.companySize then i.companySize else none)
      else none
    isOnline := false
    lastSeen := now
    createdAt := now }

/-- The field list of the `select` in the `/register` transaction — it has no
`passwordHash` member. -/
structure RegisterView where
  id : String
  email : String
  firstName : String
  lastName : String
  role : String
  avatar : Option String
  bio : Option String
  isEmailVerified : Bool
  averageRating : Nat
  totalReviews : Nat
  hourlyRate : Option Nat
  companyName : Option String
  companySize : Option String
  createdAt : Nat
deriving DecidableEq, Repr

/-- The projection performed by the `select` clause of `/register`. -/
def registerSelect (u : User) : RegisterView :=
  ⟨u.id, u.email, u.firstName, u.lastName, u.role, u.avatar, u.bio,
   u.isEmailVerified, u.averageRating, u.totalReviews, u.hourlyRate,
   u.companyName, u.companySize, u.createdAt⟩

/-- A user with the `passwordHash` destructured away, as in
`const { passwordHash, ...userWithoutPassword } = user`. -/
structure PublicUser where
  id : String
  email : String
  firstName : String
  lastName : String
  role : String
  avatar : Option String
  bio : Option String
  isEmailVerified : Bool
  averageRating : Nat
  totalReviews : Nat
  hourlyRate : Option Nat
  companyName : Option String
  companySize : Option String
  isOnline : Bool
  lastSeen : Nat
  createdAt : Nat
deriving DecidableEq, Repr

/-- `{ passwordHash, ...userWithoutPassword } = user`. -/
def sanitizeUser (u : User) : PublicUser :=
  ⟨u.id, u.email, u.firstName, u.lastName, u.role, u.avatar, u.bio,
   u.isEmailVerified, u.averageRating, u.totalReviews, u.hourlyRate,
   u.companyName, u.companySize, u.isOnline, u.lastSeen, u.createdAt⟩

/-- The skill rows the `/register` transaction inserts for freelancers
(`tx.userSkill.createMany`). -/
def registerSkillRows (db : DB) (i : RegisterInput) (now : Nat) : List UserSkillRow :=
  if i.role == "FREELANCER" then
    (i.skills.getD []).map (fun s => { userId := (mkNewUser db i now).id, skill := trimStr s })
  else []

/-- The store after the `/register` transaction: the new user row plus its
skill rows. -/
def registerInsert (db : DB) (i : RegisterInput) (now : Nat) : DB :=
  { db with
      users := db.users ++ [mkNewUser db i now],
      userSkills := db.userSkills ++ registerSkillRows db i now,
      nextId := db.nextId + 1 }

/-- The `lastSeen`/`isOnline` update `/login` performs on the logged-in user's
row. -/
def loginTouch (db : DB) (now : Nat) (userId : String) : DB :=
  { db with
      users := db.users.map (fun u =>
        if u.id == userId then { u with lastSeen := now, isOnline := true } else u) }

/-- Outcome of `POST /register`. -/
inductive RegisterResult where
  | validationFailed
  | missingRoleField (msg : String)
  | conflict
  | serverError
  | created (user : RegisterView) (accessToken refreshToken : Token)
deriving DecidableEq, Repr

/-- `POST /register`: validate, enforce role-specific required fields (with
JavaScript truthiness), reject a duplicate email with 409, insert the user
(and skill rows for freelancers) and issue a token pair. -/
def registerHandler (db : DB) (now : Nat) (i : RegisterInput) : RegisterResult × DB :=
  if !(registerValidation i) then (.validationFailed, db)
  else if i.role == "FREELANCER" && !(natTruthy i.hourlyRate) then
    (.missingRoleField "Hourly rate is required for freelancers", db)
  else if i.role == "FREELANCER" && !(strTruthy i.bio) then
    (.missingRoleField "Bio is required for freelancers", db)
  else if i.role == "CLIENT" && !(strTruthy (i.companyName.map trimStr)) then
    (.missingRoleField "Company name is required for clients", db)
  else
    match db.users.find? (fun u => u.email == normalizeEmail i.email) with
    | some _ => (.conflict, db)
    | none =>
      match generateTokenPair (registerInsert db i now) now (mkNewUser db i now) with
      | none => (.serverError, registerInsert db i now)
      | some ((atk, rtk), db2) =>
        (.created (registerSelect (mkNewUser db i now)) atk rtk, db2)

/-- Outcome of `POST /login`. -/
inductive LoginResult where
  | validationFailed
  | unauthorized (msg : String)
  | serverError
  | ok (user : PublicUser) (accessToken refreshToken : Token)
deriving DecidableEq, Repr

/-- `POST /login`: validate email and non-empty password, look the user up by
normalized email, compare the password against the stored hash (the same
generic 401 for an absent user and a mismatching password), mark the user
online, issue a token pair, and return the user without its password hash. -/
def loginHandler (db : DB) (now : Nat) (email password : String) : LoginResult × DB :=
  if !(isValidEmail email && !(password == "")) then (.validationFailed, db)
  else
    match db.users.find? (fun u => u.email == normalizeEmail email) with
    | none => (.unauthorized "Invalid email or password", db)
    | some user =>
      if !(comparePassword password user.passwordHash) then
        (.unauthorized "Invalid email or password", db)
      else
        match generateTokenPair (loginTouch db now user.id) now user with
        | none => (.serverError, loginTouch db now user.id)
        | some ((atk, rtk), db2) => (.ok (sanitizeUser user) atk rtk, db2)

/-- Outcome of `POST /forgot-password`. -/
inductive ForgotResult where
  | validationFailed
  | notFound
  | ok (resetTokenEcho : Option String)
deriving DecidableEq, Repr

/-- `POST /forgot-password`: validate the email, 404 when no user has it,
persist a reset token, and echo the token in the response exactly when
`NODE_ENV === 'development'` (`undefined` keys are dropped from the JSON). -/
def forgotPasswordHandler (db : DB) (now : Nat) (env : String) (uuid : String)
    (email : String) : ForgotResult × DB :=
  if !(isValidEmail email) then (.validationFailed, db)
  else
    match db.users.find? (fun u => u.email == normalizeEmail email) with
    | none => (.notFound, db)
    | some user =>
      let (tok, db1) := generatePasswordResetToken db now uuid user.id
      (.ok (if env == "development" then some tok else none), db1)

/-- Outcome of `POST /reset-password`. -/
inductive ResetResult where
  | validationFailed
  | invalidToken
  | serverError
  | ok
deriving DecidableEq, Repr

/-- `prisma.user.update` of the password hash. -/
def updatePasswordRow (db : DB) (userId : String) (h : BcryptHash) : DB :=
  { db with
      users := db.users.map (fun u =>
        if u.id == userId then { u with passwordHash := h } else u) }

/-- `POST /reset-password`: validate, verify the reset token, then run the
three effects — password update, token consumption, revocation of all the
user's refresh tokens — via `Promise.all`.  The promises are independent:
when the user-row update fails (`updateOk = false`, e.g. a transient store
error), the other two effects still run to completion and persist, and the
rejection then propagates as an error response. -/
def resetPasswordHandler (db : DB) (now : Nat) (token newPassword : String)
    (updateOk : Bool) : ResetResult × DB :=
  if !(!(token == "") && passwordPolicy newPassword) then (.validationFailed, db)
  else
    match verifyPasswordResetToken db now token with
    | (none, db1) => (.invalidToken, db1)
    | (some user, db1) =>
      let db2 := if updateOk then updatePasswordRow db1 user.id (hashPassword newPassword) else db1
      let db3 := (consumePasswordResetToken db2 token).2
      let db4 := (revokeAllUserTokens db3 user.id).2
      if updateOk then (.ok, db4) else (.serverError, db4)

/-! ## Middleware (`src/middleware/auth.ts`) -/

/-- The identity `authenticate` attaches to the request. -/
structure ReqUser where
  id : String
  email : String
  firstName : String
  lastName : String
  role : String
  isEmailVerified : Bool
deriving DecidableEq, Repr

/-- The `select` of the middleware's user lookup. -/
def toReqUser (u : User) : ReqUser :=
  ⟨u.id, u.email, u.firstName, u.lastName, u.role, u.isEmailVerified⟩

/-- The `Authorization` header: absent, present without the `Bearer ` prefix,
or a bearer token. -/
inductive AuthHeader where
  | missing
  | malformed (raw : String)
  | bearer (token : Token)
deriving DecidableEq, Repr

/-- Outcome of the required `authenticate` middleware. -/
inductive AuthResult where
  | noToken
  | invalidToken
  | userNotFound
  | authed (user : ReqUser)
deriving DecidableEq, Repr

/-- `authenticate`: 401 `'Access token required'` without a bearer token,
401 `'Invalid or expired token'` when verification fails, 401 `'User not
found'` when the embedded user id resolves to no row, else attach the
re-read identity and continue. -/
def authenticate (db : DB) (now : Nat) (h : AuthHeader) : AuthResult :=
  match h with
  | .missing => .noToken
  | .malformed _ => .noToken
  | .bearer tok =>
    match verifyAccessToken now tok with
    | none => .invalidToken
    | some payload =>
      match db.users.find? (fun u => u.id == payload.userId) with
      | none => .userNotFound
      | some u => .authed (toReqUser u)

/-- `optionalAuth`: the same verification, but every failure continues with
no identity attached. -/
def optionalAuth (db : DB) (now : Nat) (h : AuthHeader) : Option ReqUser :=
  match h with
  | .missing => none
  | .malformed _ => none
  | .bearer tok =>
    match verifyAccessToken now tok with
    | none => none
    | some payload =>
      match db.users.find? (fun u => u.id == payload.userId) with
      | none => none
      | some u => some (toReqUser u)

/-! ## Per-user rate limiter (`rateLimitByUser`) -/

/-- An entry of the limiter's in-memory map. -/
structure RateEntry where
  count : Nat
  resetTime : Nat
deriving DecidableEq, Repr

/-- The limiter's `Map<string, { count, resetTime }>`, as an association
list. -/
abbrev RateMap := List (String × RateEntry)

/-- `requests.get(key)`. -/
def rateLookup (m : RateMap) (k : String) : Option RateEntry :=
  (m.find? (fun p => p.1 == k)).map Prod.snd

/-- `requests.set(key, e)` (replace, or append when absent). -/
def rateSet (m : RateMap) (k : String) (e : RateEntry) : RateMap :=
  if m.any (fun p => p.1 == k) then
    m.map (fun p => if p.1 == k then (k, e) else p)
  else m ++ [(k, e)]

/-- `req.user?.id || req.ip || 'anonymous'`. -/
def rateKey (userId ip : Option String) : String :=
  jsStrOr userId (jsStrOr ip "anonymous")

/-- One request through `rateLimitByUser(maxRequests, windowMs)`: a missing
or reset-expired entry starts a fresh window with count 1 and passes; a
saturated entry yields 429 and leaves the map untouched; otherwise the count
is incremented and the request passes. -/
def rateLimitStep (maxRequests windowMs : Nat) (m : RateMap) (key : String)
    (now : Nat) : Bool × RateMap :=
  match rateLookup m key with
  | none => (true, rateSet m key ⟨1, now + windowMs⟩)
  | some e =>
    if e.resetTime < now then (true, rateSet m key ⟨1, now + windowMs⟩)
    else if maxRequests ≤ e.count then (false, m)
    else (true, rateSet m key ⟨e.count + 1, e.resetTime⟩)

/-- Fold a sequence of request times for one key through the limiter,
counting the requests passed through. -/
def runRateLimiter (maxRequests windowMs : Nat) (m : RateMap) (key : String) :
    List Nat → Nat × RateMap
  | [] => (0, m)
  | t :: ts =>
    let s1 := rateLimitStep maxRequests windowMs m key t
    let s2 := runRateLimiter maxRequests windowMs s1.2 key ts
    ((if s1.1 then 1 else 0) + s2.1, s2.2)

/-! ## Auxiliary definitions and concrete fixtures -/

/-- `tok` cannot be a token freshly signed at time `t`: it is garbage (never
equal to a signed token) or was signed strictly before `t`. -/
def tokenIssuedBefore (t : Nat) : Token → Bool
  | Token.signed st => decide (st.iat < t)
  | Token.garbage _ => true

/-- A concrete stored user. -/
def sampleUser : User :=
  { id := "u1", email := "a@b", passwordHash := hashPassword "Secret12",
    firstName := "Ann", lastName := "Lee", role := "CLIENT", avatar := none,
    bio := none, isEmailVerified := false, averageRating := 0, totalReviews := 0,
    hourlyRate := none, companyName := some "Acme", companySize := none,
    isOnline := false, lastSeen := 0, createdAt := 0 }

/-- The payload of `sampleUser`'s tokens. -/
def samplePayload : JWTPayload := ⟨"u1", "a@b", "CLIENT"⟩

/-- An access token for `sampleUser`, valid (as a signature) until time 1000. -/
def sampleAccessToken : Token := Token.signed ⟨samplePayload, JWT_SECRET, 0, 1000⟩

/-- A refresh token for `sampleUser`, valid (as a signature) until time 1000. -/
def sampleRefreshToken : Token := Token.signed ⟨samplePayload, JWT_REFRESH_SECRET, 0, 1000⟩

/-- A store with `sampleUser` and no token rows. -/
def dbNoRows : DB := ⟨[sampleUser], [], [], [], 0⟩

/-- A store where `sampleRefreshToken` is persisted with stored expiry 100. -/
def dbExpiredRow : DB := ⟨[sampleUser], [⟨0, sampleRefreshToken, "u1", 100⟩], [], [], 1⟩

/-- A store where `sampleRefreshToken` is persisted with stored expiry 500. -/
def dbLiveRow : DB := ⟨[sampleUser], [⟨0, sampleRefreshToken, "u1", 500⟩], [], [], 1⟩

/-- A store with a live refresh-token row and a valid reset token `"rtok"`. -/
def dbResetRow : DB := ⟨[sampleUser], [⟨0, sampleRefreshToken, "u1", 500⟩], [⟨1, "rtok", "u1", 100⟩], [], 2⟩

/-- The empty store. -/
def dbEmpty : DB := ⟨[], [], [], [], 0⟩

/-- A concrete valid registration request. -/
def sampleRegisterInput : RegisterInput :=
  ⟨"a@b.c", "Secret12", "Ann", "Lee", "CLIENT", none, none, none, some "Acme", none⟩

/-- The access token of a first issuance to `sampleUser` at time 1. -/
def wA1 : Token := Token.signed ⟨samplePayload, JWT_SECRET, 1, 1 + ACCESS_TTL⟩

/-- The refresh token of a first issuance to `sampleUser` at time 1. -/
def wR1 : Token := Token.signed ⟨samplePayload, JWT_REFRESH_SECRET, 1, 1 + REFRESH_TTL⟩

/-- The access token of a second issuance to `sampleUser` at time 2. -/
def wA2 : Token := Token.signed ⟨samplePayload, JWT_SECRET, 2, 2 + ACCESS_TTL⟩

/-- The refresh token of a second issuance to `sampleUser` at time 2. -/
def wR2 : Token := Token.signed ⟨samplePayload, JWT_REFRESH_SECRET, 2, 2 + REFRESH_TTL⟩

/-- The store after the first issuance. -/
def wDb1 : DB := ⟨[sampleUser], [⟨0, wR1, "u1", 1 + REFRESH_TTL⟩], [], [], 1⟩

/-- The store after both issuances. -/
def wDb2 : DB :=
  ⟨[sampleUser], [⟨0, wR1, "u1", 1 + REFRESH_TTL⟩, ⟨1, wR2, "u1", 2 + REFRESH_TTL⟩], [], [], 2⟩

/-! ## Helper lemmas -/

theorem find?_append_of_none {α : Type} (p : α → Bool) (l₁ l₂ : List α)
    (h : l₁.find? p = none) : (l₁ ++ l₂).find? p = l₂.find? p := by
  induction l₁ with
  | nil => rfl
  | cons hd tl ih =>
    cases hp : p hd with
    | true => simp [List.find?, hp] at h
    | false =>
      simp only [List.find?, hp, List.cons_append] at h ⊢
      exact ih h

theorem tokenIssuedBefore_ne_fresh (t : Nat) (p : JWTPayload) (tok : Token)
    (h : tokenIssuedBefore t tok = true) : tok ≠ generateRefreshToken t p := by
  intro he
  rw [he] at h
  simp [tokenIssuedBefore, generateRefreshToken] at h

theorem tokenIssuedBefore_mono {t t' : Nat} (htt : t ≤ t') (tok : Token)
    (h : tokenIssuedBefore t tok = true) : tokenIssuedBefore t' tok = true := by
  cases tok with
  | garbage s => rfl
  | signed st =>
    simp only [tokenIssuedBefore, decide_eq_true_eq] at h ⊢
    omega

theorem generateTokenPair_fresh (db : DB) (now : Nat) (u : User)
    (h : ∀ r ∈ db.refreshTokens, tokenIssuedBefore now r.token = true) :
    generateTokenPair db now u =
      some ((generateAccessToken now ⟨u.id, u.email, u.role⟩,
             generateRefreshToken now ⟨u.id, u.email, u.role⟩),
        { db with
            refreshTokens := db.refreshTokens ++
              [⟨db.nextId, generateRefreshToken now ⟨u.id, u.email, u.role⟩, u.id,
                now + REFRESH_TTL⟩],
            nextId := db.nextId + 1 }) := by
  have hany : db.refreshTokens.any
      (fun r => r.token == generateRefreshToken now ⟨u.id, u.email, u.role⟩) = false := by
    rw [Bool.eq_false_iff]
    intro hc
    rw [List.any_eq_true] at hc
    obtain ⟨r, hr, hrt⟩ := hc
    exact tokenIssuedBefore_ne_fresh now ⟨u.id, u.email, u.role⟩ r.token (h r hr)
      (by simpa using hrt)
  simp [generateTokenPair, hany]

/-! ## Claim theorems -/

/-- C9: for every password `p`, `comparePassword(p, hashPassword(p))` is true,
and for every `p' ≠ p`, `comparePassword(p', hashPassword(p))` is false. -/
theorem comparePassword_hashPassword (p p' : String) (h : p' ≠ p) :
    comparePassword p (hashPassword p) = true ∧
    comparePassword p' (hashPassword p) = false := by
  constructor
  · simp [comparePassword, hashPassword]
  · simp [comparePassword, hashPassword, h]

theorem comparePassword_hashPassword_witness :
    comparePassword "Secret12" (hashPassword "Secret12") = true ∧
    comparePassword "Secret13" (hashPassword "Secret12") = false :=
  comparePassword_hashPassword "Secret12" "Secret13" (by decide)

/-- C3: for a well-formed email and non-empty password, an unknown email and a
wrong password produce the very same 401 response with the same generic
message, and the store is untouched in both cases. -/
theorem login_generic_unauthorized (db : DB) (now : Nat) (email password : String)
    (hval : isValidEmail email = true) (hpw : password ≠ "")
    (hcase : db.users.find? (fun u => u.email == normalizeEmail email) = none ∨
      ∃ u, db.users.find? (fun u => u.email == normalizeEmail email) = some u ∧
        comparePassword password u.passwordHash = false) :
    loginHandler db now email password = (.unauthorized "Invalid email or password", db) := by
  rcases hcase with h | ⟨u, hu, hc⟩
  · simp [loginHandler, hval, hpw, h]
  · simp [loginHandler, hval, hpw, hu, hc]

theorem login_generic_unauthorized_witness :
    loginHandler dbNoRows 0 "c@d" "x" = (.unauthorized "Invalid email or password", dbNoRows) ∧
    loginHandler dbNoRows 0 "a@b" "wrongPW1" = (.unauthorized "Invalid email or password", dbNoRows) := by
  constructor
  · exact login_generic_unauthorized dbNoRows 0 "c@d" "x" (by decide) (by decide) (Or.inl (by decide))
  · exact login_generic_unauthorized dbNoRows 0 "a@b" "wrongPW1" (by decide) (by decide)
      (Or.inr ⟨sampleUser, by decide, by decide⟩)

/-- C7 (amended): `revokeRefreshToken` deletes the matching row and returns
true, and returns false when no row matches the token (the unique `delete`
throws `P2025`); `revokeAllUserTokens` deletes every row of the user and
returns true even when no row matches, because `deleteMany` does not treat an
empty match as a failure. -/
theorem revoke_semantics (db : DB) (tok : Token) (uid : String) :
    ((∀ r ∈ db.refreshTokens, r.token ≠ tok) →
      revokeRefreshToken db tok = (false, db)) ∧
    ((∃ r ∈ db.refreshTokens, r.token = tok) →
      revokeRefreshToken db tok =
        (true, { db with refreshTokens := db.refreshTokens.filter (fun r => !(r.token == tok)) })) ∧
    revokeAllUserTokens db uid =
      (true, { db with refreshTokens := db.refreshTokens.filter (fun r => !(r.userId == uid)) }) := by
  refine ⟨?_, ?_, rfl⟩
  · intro h
    have hany : db.refreshTokens.any (fun r => r.token == tok) = false := by
      rw [Bool.eq_false_iff]
      intro hc
      rw [List.any_eq_true] at hc
      obtain ⟨r, hr, hrt⟩ := hc
      exact h r hr (by simpa using hrt)
    simp [revokeRefreshToken, hany]
  · intro h
    obtain ⟨r, hr, hrt⟩ := h
    have hany : db.refreshTokens.any (fun r => r.token == tok) = true := by
      rw [List.any_eq_true]
      exact ⟨r, hr, by simp [hrt]⟩
    simp [revokeRefreshToken, hany]

theorem revoke_semantics_witness :
    revokeRefreshToken dbNoRows (Token.garbage "x") = (false, dbNoRows) ∧
    revokeRefreshToken dbLiveRow sampleRefreshToken =
      (true, { dbLiveRow with
        refreshTokens := dbLiveRow.refreshTokens.filter (fun r => !(r.token == sampleRefreshToken)) }) ∧
    revokeAllUserTokens dbLiveRow "u1" =
      (true, { dbLiveRow with
        refreshTokens := dbLiveRow.refreshTokens.filter (fun r => !(r.userId == "u1")) }) := by
  refine ⟨?_, ?_, (revoke_semantics dbLiveRow sampleRefreshToken "u1").2.2⟩
  · exact (revoke_semantics dbNoRows (Token.garbage "x") "u1").1 (by simp [dbNoRows])
  · exact (revoke_semantics dbLiveRow sampleRefreshToken "u1").2.1
      ⟨⟨0, sampleRefreshToken, "u1", 500⟩, by simp [dbLiveRow], rfl⟩

/-- C7 counterexample: `revokeAllUserTokens` on a store with no row for the
user — the not-found case — returns `true`, not `false` as the claim states. -/
theorem revokeAllUserTokens_notFound_returns_true :
    (revokeAllUserTokens dbEmpty "u1").1 = true ∧
    dbEmpty.refreshTokens.all (fun r => !(r.userId == "u1")) = true := by
  exact ⟨rfl, rfl⟩

/-- C2 (code bug): the three effects of `/reset-password` are run with
`Promise.all`, not a transaction.  In the execution where the user-row
password update fails, the reset token is still consumed and all the user's
refresh tokens are still revoked: the password is unchanged while the other
two effects persist, contradicting the all-or-nothing requirement. -/
theorem resetPassword_not_atomic :
    (resetPasswordHandler dbResetRow 0 "rtok" "NewSecret12" false).1 = ResetResult.serverError ∧
    ((resetPasswordHandler dbResetRow 0 "rtok" "NewSecret12" false).2.users.map
        User.passwordHash = [hashPassword "Secret12"]) ∧
    (resetPasswordHandler dbResetRow 0 "rtok" "NewSecret12" false).2.resetTokens = [] ∧
    (resetPasswordHandler dbResetRow 0 "rtok" "NewSecret12" false).2.refreshTokens = [] := by
  refine ⟨by decide, by decide, by decide, by decide⟩

/-- C6: the required middleware rejects a missing bearer token, a token that
fails verification, and a token whose embedded user id resolves to no row,
each with its own error; otherwise it attaches the identity re-read from the
store; the optional variant performs the same verification but maps every
failure to "continue with no identity". -/
theorem middleware_required_optional (db : DB) (now : Nat) (h : AuthHeader) :
    (∀ raw, h = .missing ∨ h = .malformed raw → authenticate db now h = .noToken) ∧
    (∀ tok, h = .bearer tok → verifyAccessToken now tok = none →
      authenticate db now h = .invalidToken) ∧
    (∀ tok p, h = .bearer tok → verifyAccessToken now tok = some p →
      db.users.find? (fun u => u.id == p.userId) = none →
      authenticate db now h = .userNotFound) ∧
    (∀ tok p u, h = .bearer tok → verifyAccessToken now tok = some p →
      db.users.find? (fun u => u.id == p.userId) = some u →
      authenticate db now h =
        .authed ⟨u.id, u.email, u.firstName, u.lastName, u.role, u.isEmailVerified⟩) ∧
    (optionalAuth db now h =
      match authenticate db now h with
      | .authed u => some u
      | _ => none) := by
  refine ⟨?_, ?_, ?_, ?_, ?_⟩
  · rintro raw (rfl | rfl) <;> rfl
  · rintro tok rfl hv
    simp [authenticate, hv]
  · rintro tok p rfl hv hf
    simp [authenticate, hv, hf]
  · rintro tok p u rfl hv hf
    simp [authenticate, hv, hf, toReqUser]
  · cases h with
    | missing => rfl
    | malformed raw => rfl
    | bearer tok =>
      cases hv : verifyAccessToken now tok with
      | none => simp [authenticate, optionalAuth, hv]
      | some p =>
        cases hf : db.users.find? (fun u => u.id == p.userId) with
        | none => simp [authenticate, optionalAuth, hv, hf]
        | some u => simp [authenticate, optionalAuth, hv, hf]

theorem middleware_required_optional_witness :
    authenticate dbNoRows 0 AuthHeader.missing = .noToken ∧
    authenticate dbNoRows 0 (.bearer (Token.garbage "zzz")) = .invalidToken ∧
    authenticate dbEmpty 0 (.bearer sampleAccessToken) = .userNotFound ∧
    authenticate dbNoRows 0 (.bearer sampleAccessToken) =
      .authed ⟨"u1", "a@b", "Ann", "Lee", "CLIENT", false⟩ ∧
    optionalAuth dbNoRows 0 (.bearer (Token.garbage "zzz")) =
      (match authenticate dbNoRows 0 (.bearer (Token.garbage "zzz")) with
       | .authed u => some u
       | _ => none) := by
  refine ⟨(middleware_required_optional dbNoRows 0 _).1 "" (Or.inl rfl),
          (middleware_required_optional dbNoRows 0 _).2.1 _ rfl (by decide),
          (middleware_required_optional dbEmpty 0 _).2.2.1 _ samplePayload rfl (by decide) (by decide),
          ?_,
          (middleware_required_optional dbNoRows 0 _).2.2.2.2⟩
  exact (middleware_required_optional dbNoRows 0 _).2.2.2.1 sampleAccessToken samplePayload
    sampleUser rfl (by decide) (by decide)

/-- C8 (amended): forgot-password 404s when no user has the email; otherwise
it persists a reset token and succeeds; the token is echoed in the response
exactly when `NODE_ENV` is `'development'` — so never in production, but also
not in other non-production environments such as `'test'`. -/
theorem forgotPassword_spec (db : DB) (now : Nat) (env uuid email : String)
    (hval : isValidEmail email = true) :
    (db.users.find? (fun u => u.email == normalizeEmail email) = none →
      forgotPasswordHandler db now env uuid email = (.notFound, db)) ∧
    (∀ u, db.users.find? (fun u => u.email == normalizeEmail email) = some u →
      forgotPasswordHandler db now env uuid email =
        (.ok (if env == "development" then some uuid else none),
          { db with
              resetTokens := db.resetTokens ++ [⟨db.nextId, uuid, u.id, now + 60 * 60 * 1000⟩],
              nextId := db.nextId + 1 }) ∧
      ((forgotPasswordHandler db now env uuid email).1 = .ok (some uuid) ↔
        env = "development")) := by
  constructor
  · intro h
    simp [forgotPasswordHandler, hval, h]
  · intro u hu
    constructor
    · simp [forgotPasswordHandler, hval, hu, generatePasswordResetToken]
    · by_cases he : env = "development"
      · simp [forgotPasswordHandler, hval, hu, generatePasswordResetToken, he]
      · simp [forgotPasswordHandler, hval, hu, generatePasswordResetToken, he]

theorem forgotPassword_spec_witness :
    forgotPasswordHandler dbEmpty 0 "development" "uu-1" "a@b" = (.notFound, dbEmpty) ∧
    forgotPasswordHandler dbNoRows 0 "development" "uu-1" "a@b" =
      (.ok (if ("development" : String) == "development" then some "uu-1" else none),
        { dbNoRows with
            resetTokens := dbNoRows.resetTokens ++ [⟨dbNoRows.nextId, "uu-1", "u1", 0 + 60 * 60 * 1000⟩],
            nextId := dbNoRows.nextId + 1 }) := by
  constructor
  · exact (forgotPassword_spec dbEmpty 0 "development" "uu-1" "a@b" (by decide)).1 (by decide)
  · exact ((forgotPassword_spec dbNoRows 0 "development" "uu-1" "a@b" (by decide)).2
      sampleUser (by decide)).1

/-- C8 counterexample: with `NODE_ENV = 'test'` — a non-production build — the
reset token is absent from the response, refuting "present exactly in
non-production builds". -/
theorem forgot_nonproduction_no_echo :
    (forgotPasswordHandler dbNoRows 0 "test" "uu-1" "a@b").1 = ForgotResult.ok none ∧
    ("test" : String) ≠ "production" := by
  exact ⟨by decide, by decide⟩

/-- C1: `refreshAccessToken` returns null on a syntactically invalid or
unverifiable token, and on a validly-signed but unpersisted one, leaving the
store untouched and throwing nothing; on a persisted row whose stored expiry
has passed it deletes the stale row and returns null, and a second call with
the same token (at any later time) also returns null; on a valid, persisted,
unexpired token it mints a fresh access token from the user's identity
re-read from the store — not from the token's claims. -/
theorem refreshAccessToken_spec (db : DB) (now : Nat) (tok : Token) :
    (verifyRefreshToken now tok = none → refreshAccessToken db now tok = (none, db)) ∧
    (∀ p, verifyRefreshToken now tok = some p →
      db.refreshTokens.find? (fun r => r.token == tok) = none →
      refreshAccessToken db now tok = (none, db)) ∧
    (∀ p row, verifyRefreshToken now tok = some p →
      db.refreshTokens.find? (fun r => r.token == tok) = some row →
      row.expiresAt < now →
      (∀ r ∈ db.refreshTokens, r.token = tok → r.id = row.id) →
      ∃ db', refreshAccessToken db now tok = (none, db') ∧
        (∀ r ∈ db'.refreshTokens, r.token ≠ tok) ∧
        (∀ now2, (refreshAccessToken db' now2 tok).1 = none)) ∧
    (∀ p row user, verifyRefreshToken now tok = some p →
      db.refreshTokens.find? (fun r => r.token == tok) = some row →
      ¬(row.expiresAt < now) →
      db.users.find? (fun u => u.id == row.userId) = some user →
      refreshAccessToken db now tok =
        (some (generateAccessToken now ⟨user.id, user.email, user.role⟩), db)) := by
  refine ⟨?_, ?_, ?_, ?_⟩
  · intro h
    simp [refreshAccessToken, h]
  · intro p hp hf
    simp [refreshAccessToken, hp, hf]
  · intro p row hp hf hexp huniq
    refine ⟨{ db with refreshTokens := db.refreshTokens.filter (fun r => !(r.id == row.id)) },
      ?_, ?_, ?_⟩
    · simp [refreshAccessToken, hp, hf, hexp]
    · intro r hr ht
      rw [List.mem_filter] at hr
      obtain ⟨hr1, hr2⟩ := hr
      have : r.id = row.id := huniq r hr1 ht
      simp [this] at hr2
    · intro now2
      have hnone : (db.refreshTokens.filter (fun r => !(r.id == row.id))).find?
          (fun r => r.token == tok) = none := by
        rw [List.find?_eq_none]
        intro r hr
        rw [List.mem_filter] at hr
        obtain ⟨hr1, hr2⟩ := hr
        simp only [beq_iff_eq]
        intro ht
        have : r.id = row.id := huniq r hr1 ht
        simp [this] at hr2
      cases hv : verifyRefreshToken now2 tok with
      | none => simp [refreshAccessToken, hv]
      | some q => simp [refreshAccessToken, hv, hnone]
  · intro p row user hp hf hexp hu
    simp [refreshAccessToken, hp, hf, hexp, hu]

theorem refreshAccessToken_spec_witness :
    refreshAccessToken dbNoRows 0 (Token.garbage "x") = (none, dbNoRows) ∧
    refreshAccessToken dbNoRows 5 sampleRefreshToken = (none, dbNoRows) ∧
    (∃ db', refreshAccessToken dbExpiredRow 200 sampleRefreshToken = (none, db') ∧
      (∀ r ∈ db'.refreshTokens, r.token ≠ sampleRefreshToken) ∧
      (∀ now2, (refreshAccessToken db' now2 sampleRefreshToken).1 = none)) ∧
    refreshAccessToken dbLiveRow 200 sampleRefreshToken =
      (some (generateAccessToken 200 ⟨"u1", "a@b", "CLIENT"⟩), dbLiveRow) := by
  refine ⟨(refreshAccessToken_spec dbNoRows 0 (Token.garbage "x")).1 (by decide),
          (refreshAccessToken_spec dbNoRows 5 sampleRefreshToken).2.1 samplePayload
            (by decide) (by decide),
          (refreshAccessToken_spec dbExpiredRow 200 sampleRefreshToken).2.2.1 samplePayload
            ⟨0, sampleRefreshToken, "u1", 100⟩ (by decide) (by decide) (by decide) (by decide),
          ?_⟩
  have h := (refreshAccessToken_spec dbLiveRow 200 sampleRefreshToken).2.2.2 samplePayload
    ⟨0, sampleRefreshToken, "u1", 500⟩ sampleUser (by decide) (by decide) (by decide) (by decide)
  simpa [sampleUser] using h

/-- C5: two token pairs issued to the same user are independently valid and
independently revocable: revoking the first deletes exactly its row and the
second still refreshes successfully; after `revokeAllUserTokens`,
`refreshAccessToken` returns null for every token whose persisted rows all
belonged to that user — in particular every token previously issued to them. -/
theorem tokenPair_independent_revocation (db db1 db2 : DB) (u : User)
    (now1 now2 : Nat) (a1 r1 a2 r2 : Token)
    (hfind : db.users.find? (fun w => w.id == u.id) = some u)
    (hold : ∀ r ∈ db.refreshTokens, tokenIssuedBefore now1 r.token = true)
    (hlt : now1 < now2)
    (h1 : generateTokenPair db now1 u = some ((a1, r1), db1))
    (h2 : generateTokenPair db1 now2 u = some ((a2, r2), db2)) :
    r1 ≠ r2 ∧
    (revokeRefreshToken db2 r1).1 = true ∧
    (revokeRefreshToken db2 r1).2.refreshTokens =
      db2.refreshTokens.filter (fun r => !(r.token == r1)) ∧
    (∀ now3, now3 < now2 + REFRESH_TTL →
      (refreshAccessToken (revokeRefreshToken db2 r1).2 now3 r2).1 =
        some (generateAccessToken now3 ⟨u.id, u.email, u.role⟩)) ∧
    (∀ t : Token, (∀ r ∈ db2.refreshTokens, r.token = t → r.userId = u.id) →
      ∀ now3, (refreshAccessToken (revokeAllUserTokens db2 u.id).2 now3 t).1 = none) := by
  rw [generateTokenPair_fresh db now1 u hold] at h1
  simp only [Option.some.injEq, Prod.mk.injEq] at h1
  obtain ⟨⟨ha1, hr1⟩, hdb1⟩ := h1
  subst ha1
  subst hr1
  have htok1 : db1.refreshTokens = db.refreshTokens ++
      [⟨db.nextId, generateRefreshToken now1 ⟨u.id, u.email, u.role⟩, u.id,
        now1 + REFRESH_TTL⟩] := by
    rw [← hdb1]
  have husers1 : db1.users = db.users := by rw [← hdb1]
  have hold1 : ∀ r ∈ db1.refreshTokens, tokenIssuedBefore now2 r.token = true := by
    intro r hr
    rw [htok1] at hr
    rcases List.mem_append.mp hr with hr | hr
    · exact tokenIssuedBefore_mono (Nat.le_of_lt hlt) _ (hold r hr)
    · rcases List.mem_singleton.mp hr with rfl
      simp only [tokenIssuedBefore, generateRefreshToken, decide_eq_true_eq]
      exact hlt
  rw [generateTokenPair_fresh db1 now2 u hold1] at h2
  simp only [Option.some.injEq, Prod.mk.injEq] at h2
  obtain ⟨⟨ha2, hr2⟩, hdb2⟩ := h2
  subst ha2
  subst hr2
  have htok2 : db2.refreshTokens = db1.refreshTokens ++
      [⟨db1.nextId, generateRefreshToken now2 ⟨u.id, u.email, u.role⟩, u.id,
        now2 + REFRESH_TTL⟩] := by
    rw [← hdb2]
  have husers2 : db2.users = db1.users := by rw [← hdb2]
  have hne : generateRefreshToken now1 (⟨u.id, u.email, u.role⟩ : JWTPayload) ≠
      generateRefreshToken now2 ⟨u.id, u.email, u.role⟩ := by
    intro hcon
    rw [generateRefreshToken, generateRefreshToken] at hcon
    injection hcon with hst
    injection hst with hpay hsec hiat hexp
    omega
  have hany : db2.refreshTokens.any
      (fun r => r.token == generateRefreshToken now1 ⟨u.id, u.email, u.role⟩) = true := by
    rw [List.any_eq_true]
    refine ⟨⟨db.nextId, generateRefreshToken now1 ⟨u.id, u.email, u.role⟩, u.id,
      now1 + REFRESH_TTL⟩, ?_, by simp⟩
    rw [htok2, htok1]
    simp
  have hrevoke : revokeRefreshToken db2 (generateRefreshToken now1 ⟨u.id, u.email, u.role⟩) =
      (true,
        { db2 with
            refreshTokens :=
              db2.refreshTokens.filter
                (fun r => !(r.token == generateRefreshToken now1 ⟨u.id, u.email, u.role⟩)) }) := by
    simp [revokeRefreshToken, hany]
  refine ⟨hne, ?_, ?_, ?_, ?_⟩
  · rw [hrevoke]
  · rw [hrevoke]
  · intro now3 h3
    have hver : verifyRefreshToken now3 (generateRefreshToken now2 ⟨u.id, u.email, u.role⟩) =
        some ⟨u.id, u.email, u.role⟩ := by
      simp [verifyRefreshToken, jwtVerify, generateRefreshToken, h3]
    have hne21 : ((generateRefreshToken now2 (⟨u.id, u.email, u.role⟩ : JWTPayload) ==
        generateRefreshToken now1 ⟨u.id, u.email, u.role⟩)) = false := by
      rw [beq_eq_false_iff_ne]
      exact Ne.symm hne
    have hfnone : ((db.refreshTokens.filter
          (fun r => !(r.token == generateRefreshToken now1 ⟨u.id, u.email, u.role⟩)))).find?
          (fun r => r.token == generateRefreshToken now2 ⟨u.id, u.email, u.role⟩) = none := by
      rw [List.find?_eq_none]
      intro r hr
      rw [List.mem_filter] at hr
      simp only [beq_iff_eq]
      exact tokenIssuedBefore_ne_fresh now2 _ r.token
        (tokenIssuedBefore_mono (Nat.le_of_lt hlt) _ (hold r hr.1))
    have h1s : List.filter
        (fun r => !(r.token == generateRefreshToken now1 ⟨u.id, u.email, u.role⟩))
        [(⟨db.nextId, generateRefreshToken now1 ⟨u.id, u.email, u.role⟩, u.id,
          now1 + REFRESH_TTL⟩ : RefreshTokenRow)] = [] := by
      simp
    have h2s : List.filter
        (fun r => !(r.token == generateRefreshToken now1 ⟨u.id, u.email, u.role⟩))
        [(⟨db1.nextId, generateRefreshToken now2 ⟨u.id, u.email, u.role⟩, u.id,
          now2 + REFRESH_TTL⟩ : RefreshTokenRow)] =
        [⟨db1.nextId, generateRefreshToken now2 ⟨u.id, u.email, u.role⟩, u.id,
          now2 + REFRESH_TTL⟩] := by
      simp [hne21]
    have hfind2 : (db2.refreshTokens.filter
          (fun r => !(r.token == generateRefreshToken now1 ⟨u.id, u.email, u.role⟩))).find?
          (fun r => r.token == generateRefreshToken now2 ⟨u.id, u.email, u.role⟩) =
        some ⟨db1.nextId, generateRefreshToken now2 ⟨u.id, u.email, u.role⟩, u.id,
          now2 + REFRESH_TTL⟩ := by
      rw [htok2, htok1, List.filter_append, List.filter_append, h1s, h2s, List.append_nil,
        find?_append_of_none _ _ _ hfnone]
      simp
    rw [hrevoke]
    simp only [refreshAccessToken, hver, hfind2]
    have hexp2 : ¬(now2 + REFRESH_TTL < now3) := by omega
    simp only [if_neg hexp2]
    simp [husers2, husers1, hfind]
  · intro t huser now3
    have hfnone : ((revokeAllUserTokens db2 u.id).2.refreshTokens).find?
        (fun r => r.token == t) = none := by
      rw [List.find?_eq_none]
      intro r hr
      replace hr : r ∈ db2.refreshTokens.filter (fun r => !(r.userId == u.id)) := hr
      rw [List.mem_filter] at hr
      obtain ⟨hr1, hr2⟩ := hr
      simp only [beq_iff_eq]
      intro ht
      have := huser r hr1 ht
      simp [this] at hr2
    cases hv : verifyRefreshToken now3 t with
    | none => simp [refreshAccessToken, hv]
    | some q => simp [refreshAccessToken, hv, hfnone]

theorem tokenPair_independent_revocation_witness :
    wR1 ≠ wR2 ∧
    (revokeRefreshToken wDb2 wR1).1 = true ∧
    (revokeRefreshToken wDb2 wR1).2.refreshTokens =
      wDb2.refreshTokens.filter (fun r => !(r.token == wR1)) ∧
    (∀ now3, now3 < 2 + REFRESH_TTL →
      (refreshAccessToken (revokeRefreshToken wDb2 wR1).2 now3 wR2).1 =
        some (generateAccessToken now3 ⟨"u1", "a@b", "CLIENT"⟩)) ∧
    (∀ t : Token, (∀ r ∈ wDb2.refreshTokens, r.token = t → r.userId = "u1") →
      ∀ now3, (refreshAccessToken (revokeAllUserTokens wDb2 "u1").2 now3 t).1 = none) := by
  have h := tokenPair_independent_revocation dbNoRows wDb1 wDb2 sampleUser 1 2 wA1 wR1 wA2 wR2
    (by decide) (by decide) (by decide) (by decide) (by decide)
  simpa [sampleUser] using h

theorem rateLookup_map_update (m : RateMap) (k : String) (e : RateEntry)
    (h : m.any (fun p => p.1 == k) = true) :
    rateLookup (m.map (fun p => if p.1 == k then (k, e) else p)) k = some e := by
  induction m with
  | nil => simp at h
  | cons hd tl ih =>
    by_cases hh : (hd.1 == k) = true
    · simp [rateLookup, List.find?, hh]
    · have htl : tl.any (fun p => p.1 == k) = true := by
        simpa [List.any_cons, hh] using h
      have htail := ih htl
      simp only [List.map_cons, if_neg hh]
      simpa [rateLookup, List.find?, hh] using htail

theorem rateLookup_rateSet (m : RateMap) (k : String) (e : RateEntry) :
    rateLookup (rateSet m k e) k = some e := by
  unfold rateSet
  by_cases h : m.any (fun p => p.1 == k) = true
  · rw [if_pos h]
    exact rateLookup_map_update m k e h
  · rw [if_neg h]
    have hnone : m.find? (fun p => p.1 == k) = none := by
      rw [List.find?_eq_none]
      intro x hx hpx
      exact h (List.any_eq_true.mpr ⟨x, hx, hpx⟩)
    unfold rateLookup
    rw [find?_append_of_none _ _ _ hnone]
    simp [List.find?]

theorem runRateLimiter_bound (maxRequests windowMs : Nat) (key : String) (R : Nat) :
    ∀ (ts : List Nat) (m : RateMap) (c : Nat),
      rateLookup m key = some ⟨c, R⟩ →
      (∀ t ∈ ts, t ≤ R) →
      c ≤ maxRequests →
      (runRateLimiter maxRequests windowMs m key ts).1 ≤ maxRequests - c := by
  intro ts
  induction ts with
  | nil =>
    intro m c hm hts hc
    simp [runRateLimiter]
  | cons t ts ih =>
    intro m c hm hts hc
    have htR : t ≤ R := hts t (List.mem_cons_self t ts)
    have hnotreset : ¬(R < t) := by omega
    by_cases hsat : maxRequests ≤ c
    · have hstep : rateLimitStep maxRequests windowMs m key t = (false, m) := by
        simp [rateLimitStep, hm, if_neg hnotreset, if_pos hsat]
      have hrec := ih m c hm (fun x hx => hts x (List.mem_cons_of_mem _ hx)) hc
      simp only [runRateLimiter, hstep]
      simpa using hrec
    · have hnsat : ¬(maxRequests ≤ (⟨c, R⟩ : RateEntry).count) := hsat
      have hstep : rateLimitStep maxRequests windowMs m key t =
          (true, rateSet m key ⟨c + 1, R⟩) := by
        simp [rateLimitStep, hm, if_neg hnotreset, if_neg hnsat]
      have hm2 : rateLookup (rateSet m key ⟨c + 1, R⟩) key = some ⟨c + 1, R⟩ :=
        rateLookup_rateSet m key _
      have hrec := ih (rateSet m key ⟨c + 1, R⟩) (c + 1) hm2
        (fun x hx => hts x (List.mem_cons_of_mem _ hx)) (by omega)
      simp only [runRateLimiter, hstep]
      simp only [if_pos]
      omega

/-- C10 (amended): for `maxRequests ≥ 1`, a window opened by a request on a
key with no live entry admits at most `maxRequests` requests; the request
that would exceed the bound gets a 429 and leaves the map — hence the count —
untouched; and the first request after the reset time starts a fresh window
with count 1 and passes.  (With `maxRequests = 0` the window-opening request
still passes, so the bound needs the `≥ 1` proviso.) -/
theorem rateLimiter_window_spec (maxRequests windowMs : Nat) (m : RateMap)
    (key : String) (t1 : Nat) (ts : List Nat)
    (hmax : 1 ≤ maxRequests)
    (hstart : rateLookup m key = none ∨ ∃ e, rateLookup m key = some e ∧ e.resetTime < t1)
    (hin : ∀ t ∈ ts, t ≤ t1 + windowMs) :
    (runRateLimiter maxRequests windowMs m key (t1 :: ts)).1 ≤ maxRequests ∧
    (∀ (m2 : RateMap) (e : RateEntry) (now : Nat),
      rateLookup m2 key = some e → ¬(e.resetTime < now) → maxRequests ≤ e.count →
      rateLimitStep maxRequests windowMs m2 key now = (false, m2)) ∧
    (∀ (m2 : RateMap) (e : RateEntry) (now : Nat),
      rateLookup m2 key = some e → e.resetTime < now →
      rateLimitStep maxRequests windowMs m2 key now =
        (true, rateSet m2 key ⟨1, now + windowMs⟩)) := by
  refine ⟨?_, ?_, ?_⟩
  · have hstep1 : rateLimitStep maxRequests windowMs m key t1 =
        (true, rateSet m key ⟨1, t1 + windowMs⟩) := by
      rcases hstart with h | ⟨e, he, hr⟩
      · simp [rateLimitStep, h]
      · simp [rateLimitStep, he, hr]
    have hm1 : rateLookup (rateSet m key ⟨1, t1 + windowMs⟩) key = some ⟨1, t1 + windowMs⟩ :=
      rateLookup_rateSet m key _
    have hb := runRateLimiter_bound maxRequests windowMs key (t1 + windowMs) ts _ 1 hm1 hin hmax
    simp only [runRateLimiter, hstep1]
    simp only [if_pos]
    omega
  · intro m2 e now he hnr hsat
    simp [rateLimitStep, he, if_neg hnr, if_pos hsat]
  · intro m2 e now he hr
    simp [rateLimitStep, he, if_pos hr]

theorem rateLimiter_window_spec_witness :
    (runRateLimiter 2 10 [] "k" (0 :: [1, 2, 3])).1 ≤ 2 ∧
    (∀ (m2 : RateMap) (e : RateEntry) (now : Nat),
      rateLookup m2 "k" = some e → ¬(e.resetTime < now) → 2 ≤ e.count →
      rateLimitStep 2 10 m2 "k" now = (false, m2)) ∧
    (∀ (m2 : RateMap) (e : RateEntry) (now : Nat),
      rateLookup m2 "k" = some e → e.resetTime < now →
      rateLimitStep 2 10 m2 "k" now = (true, rateSet m2 "k" ⟨1, now + 10⟩)) :=
  rateLimiter_window_spec 2 10 [] "k" 0 [1, 2, 3] (by decide) (Or.inl (by decide)) (by decide)

/-- C10 counterexample: with the configuration `maxRequests = 0` the
window-opening request still passes, so within that window more than
`maxRequests` requests are passed through, refuting the claim's bound as
stated for every configuration. -/
theorem rateLimiter_zero_max_counterexample :
    (runRateLimiter 0 10 [] "k" [5]).1 = 1 ∧ ¬((runRateLimiter 0 10 [] "k" [5]).1 ≤ 0) := by
  refine ⟨by decide, by decide⟩

/-- C4: for every valid registration input the 201 response carries the
`select`-projected user view, which has no password-hash field (it is
invariant under the stored hash), and a subsequent login with the same email
and password succeeds with the sanitized user (again hash-free) plus an
access and a refresh token. -/
theorem register_then_login (db : DB) (i : RegisterInput) (now1 now2 : Nat)
    (hval : registerValidation i = true)
    (hfr : i.role = "FREELANCER" → natTruthy i.hourlyRate = true ∧ strTruthy i.bio = true)
    (hcl : i.role = "CLIENT" → strTruthy (i.companyName.map trimStr) = true)
    (hfresh : ∀ u ∈ db.users, u.email ≠ normalizeEmail i.email)
    (hold : ∀ r ∈ db.refreshTokens, tokenIssuedBefore now1 r.token = true)
    (hlt : now1 < now2) :
    ∃ atk rtk db1,
      registerHandler db now1 i =
        (.created (registerSelect (mkNewUser db i now1)) atk rtk, db1) ∧
      (∀ h : BcryptHash,
        registerSelect { mkNewUser db i now1 with passwordHash := h } =
          registerSelect (mkNewUser db i now1)) ∧
      ∃ atk2 rtk2 db2,
        loginHandler db1 now2 i.email i.password =
          (.ok (sanitizeUser (mkNewUser db i now1)) atk2 rtk2, db2) ∧
        (∀ (h : BcryptHash) (u : User),
          sanitizeUser { u with passwordHash := h } = sanitizeUser u) := by
  have hval2 := hval
  simp only [registerValidation, Bool.and_eq_true] at hval2
  obtain ⟨⟨⟨⟨⟨⟨⟨⟨hA, hB⟩, hC⟩, hD⟩, hE⟩, hF⟩, hG⟩, hH⟩, hI⟩ := hval2
  have hB2 := hB
  simp only [passwordPolicy, Bool.and_eq_true] at hB2
  obtain ⟨⟨⟨h8, -⟩, -⟩, -⟩ := hB2
  have hpnz : (i.password == "") = false := by
    rw [Bool.eq_false_iff]
    intro hc
    rw [show i.password = "" by simpa using hc] at h8
    exact absurd h8 (by decide)
  have hRoleF : i.role ≠ "FREELANCER" → (i.role == "FREELANCER") = false := fun h => by
    rw [beq_eq_false_iff_ne]
    exact h
  have hRoleC : i.role ≠ "CLIENT" → (i.role == "CLIENT") = false := fun h => by
    rw [beq_eq_false_iff_ne]
    exact h
  have hF1 : (i.role == "FREELANCER" && !(natTruthy i.hourlyRate)) = false := by
    by_cases hrole : i.role = "FREELANCER"
    · obtain ⟨hhr, -⟩ := hfr hrole
      rw [hhr]
      simp
    · rw [hRoleF hrole]
      simp
  have hF2 : (i.role == "FREELANCER" && !(strTruthy i.bio)) = false := by
    by_cases hrole : i.role = "FREELANCER"
    · obtain ⟨-, hbio⟩ := hfr hrole
      rw [hbio]
      simp
    · rw [hRoleF hrole]
      simp
  have hF3 : (i.role == "CLIENT" && !(strTruthy (i.companyName.map trimStr))) = false := by
    by_cases hrole : i.role = "CLIENT"
    · rw [hcl hrole]
      simp
    · rw [hRoleC hrole]
      simp
  have hrnone : db.users.find? (fun u => u.email == normalizeEmail i.email) = none := by
    rw [List.find?_eq_none]
    intro u hu
    simp only [beq_iff_eq]
    exact hfresh u hu
  have hfindnew : (db.users ++ [mkNewUser db i now1]).find?
      (fun u => u.email == normalizeEmail i.email) = some (mkNewUser db i now1) := by
    rw [find?_append_of_none _ _ _ hrnone]
    simp [List.find?, mkNewUser]
  have hcmp : comparePassword i.password (mkNewUser db i now1).passwordHash = true := by
    simp [comparePassword, mkNewUser, hashPassword]
  have hpair1 := generateTokenPair_fresh ({ users := db.users ++ [mkNewUser db i now1], refreshTokens := db.refreshTokens, resetTokens := db.resetTokens, userSkills := db.userSkills ++ registerSkillRows db i now1, nextId := db.nextId + 1 } : DB) now1 (mkNewUser db i now1)
    (fun r hr => hold r hr)
  have hreg : registerHandler db now1 i =
      (.created (registerSelect (mkNewUser db i now1))
        (generateAccessToken now1 ⟨(mkNewUser db i now1).id, (mkNewUser db i now1).email, (mkNewUser db i now1).role⟩)
        (generateRefreshToken now1 ⟨(mkNewUser db i now1).id, (mkNewUser db i now1).email, (mkNewUser db i now1).role⟩),
      ({ users := db.users ++ [mkNewUser db i now1], refreshTokens := db.refreshTokens ++ [⟨db.nextId + 1, generateRefreshToken now1 ⟨(mkNewUser db i now1).id, (mkNewUser db i now1).email, (mkNewUser db i now1).role⟩, (mkNewUser db i now1).id, now1 + REFRESH_TTL⟩], resetTokens := db.resetTokens, userSkills := db.userSkills ++ registerSkillRows db i now1, nextId := db.nextId + 1 + 1 } : DB)) := by
    simp [registerHandler, hval, hF1, hF2, hF3, hrnone, registerInsert, hpair1]
  have hold2 : ∀ r ∈ db.refreshTokens ++ [(⟨db.nextId + 1, generateRefreshToken now1 ⟨(mkNewUser db i now1).id, (mkNewUser db i now1).email, (mkNewUser db i now1).role⟩, (mkNewUser db i now1).id, now1 + REFRESH_TTL⟩ : RefreshTokenRow)],
      tokenIssuedBefore now2 r.token = true := by
    intro r hr
    rcases List.mem_append.mp hr with hr | hr
    · exact tokenIssuedBefore_mono (Nat.le_of_lt hlt) _ (hold r hr)
    · rcases List.mem_singleton.mp hr with rfl
      simp only [tokenIssuedBefore, generateRefreshToken, decide_eq_true_eq]
      exact hlt
  have hpair2 := generateTokenPair_fresh
    (loginTouch ({ users := db.users ++ [mkNewUser db i now1], refreshTokens := db.refreshTokens ++ [⟨db.nextId + 1, generateRefreshToken now1 ⟨(mkNewUser db i now1).id, (mkNewUser db i now1).email, (mkNewUser db i now1).role⟩, (mkNewUser db i now1).id, now1 + REFRESH_TTL⟩], resetTokens := db.resetTokens, userSkills := db.userSkills ++ registerSkillRows db i now1, nextId := db.nextId + 1 + 1 } : DB) now2 (mkNewUser db i now1).id) now2 (mkNewUser db i now1)
    (fun r hr => hold2 r hr)
  have hlog : loginHandler ({ users := db.users ++ [mkNewUser db i now1], refreshTokens := db.refreshTokens ++ [⟨db.nextId + 1, generateRefreshToken now1 ⟨(mkNewUser db i now1).id, (mkNewUser db i now1).email, (mkNewUser db i now1).role⟩, (mkNewUser db i now1).id, now1 + REFRESH_TTL⟩], resetTokens := db.resetTokens, userSkills := db.userSkills ++ registerSkillRows db i now1, nextId := db.nextId + 1 + 1 } : DB) now2 i.email i.password =
      (.ok (sanitizeUser (mkNewUser db i now1)) (generateAccessToken now2 ⟨(mkNewUser db i now1).id, (mkNewUser db i now1).email, (mkNewUser db i now1).role⟩)
        (generateRefreshToken now2 ⟨(mkNewUser db i now1).id, (mkNewUser db i now1).email, (mkNewUser db i now1).role⟩),
      (loginHandler ({ users := db.users ++ [mkNewUser db i now1], refreshTokens := db.refreshTokens ++ [⟨db.nextId + 1, generateRefreshToken now1 ⟨(mkNewUser db i now1).id, (mkNewUser db i now1).email, (mkNewUser db i now1).role⟩, (mkNewUser db i now1).id, now1 + REFRESH_TTL⟩], resetTokens := db.resetTokens, userSkills := db.userSkills ++ registerSkillRows db i now1, nextId := db.nextId + 1 + 1 } : DB) now2 i.email i.password).2) := by
    refine Prod.ext ?_ rfl
    simp [loginHandler, hA, hpnz, hfindnew, hcmp, hpair2]
  exact ⟨_, _, _, hreg, fun h => rfl, _, _, _, hlog, fun h u => rfl⟩

theorem register_then_login_witness :
    ∃ atk rtk db1,
      registerHandler dbEmpty 1 sampleRegisterInput =
        (.created (registerSelect (mkNewUser dbEmpty sampleRegisterInput 1)) atk rtk, db1) ∧
      (∀ h : BcryptHash,
        registerSelect { mkNewUser dbEmpty sampleRegisterInput 1 with passwordHash := h } =
          registerSelect (mkNewUser dbEmpty sampleRegisterInput 1)) ∧
      ∃ atk2 rtk2 db2,
        loginHandler db1 2 sampleRegisterInput.email sampleRegisterInput.password =
          (.ok (sanitizeUser (mkNewUser dbEmpty sampleRegisterInput 1)) atk2 rtk2, db2) ∧
        (∀ (h : BcryptHash) (u : User),
          sanitizeUser { u with passwordHash := h } = sanitizeUser u) :=
  register_then_login dbEmpty sampleRegisterInput 1 2 (by decide)
    (fun h => absurd h (by decide)) (fun h => by decide)
    (by decide) (by decide) (by decide)

end FreelanceAuth
